import Mathlib

/-!
Verification development for the PulseSpace client-side synchronization layer.

The source is a Next.js/Supabase social application. The view components hold
in-memory caches (feed posts, comments, chat messages, notifications, unread
counters) as React state, mutate the remote backend through the Supabase
query/mutate interface, and merge realtime insert events into the caches.

This file gives a shallow embedding of those handlers as pure Lean functions:
React state becomes explicit values passed in and returned, each awaited
Supabase call becomes a parameter recording its outcome, and the list of
mutations a handler issues is returned explicitly. Timestamps (ISO strings
ordered lexicographically in the source) are abstracted as naturals with the
same total order.
-/

namespace PulseSpace

/-- A feed post as cached by the Feed component (type Post in the feed source):
id, content, author id, abstract creation timestamp, the derived like and
comment counts, and the per-viewer liked flag. Counts are integers because the
source decrements with plain arithmetic. -/
structure Post where
  id : String
  content : String
  user_id : String
  created_at : Nat
  likes_count : Int
  comments_count : Int
  user_has_liked : Bool
deriving Repr, DecidableEq

/-- A gateway mutation issued by a handler: the awaited Supabase insert and
delete calls that the modelled handlers perform. -/
inductive DbOp where
  | insertLike (post_id user_id : String)
  | deleteLike (post_id user_id : String)
  | insertNotif (user_id ntype related_id from_user_id : String)
  | insertComment (post_id user_id content : String)
  | insertPost (user_id content : String)
deriving Repr, DecidableEq

/-- The full outcome of one handlePostLike call: the posts cache the caller
ends with, the gateway mutations issued, whether setPosts ran, whether a
console error was logged, and whether any user-visible error was shown (the
handler contains no alert and no error state, so this is always false). -/
structure LikeOutcome where
  posts : List Post
  ops : List DbOp
  didSet : Bool
  logged : Bool
  alerted : Bool
deriving Repr, DecidableEq

/-- The handlePostLike handler of the Feed component. It looks the post up by
findIndex over the cache snapshot captured at call time; a missing id returns
before any gateway call. For a liked post it awaits the likes delete, for an
unliked post the likes insert; a gateway error (mutateOk = false) logs to the
console and returns before setPosts. On a successful like of a post by another
author it additionally inserts one like notification, then writes the cache
computed from the snapshot. -/
def handlePostLike (userId : String) (posts : List Post) (postId : String)
    (mutateOk : Bool) : LikeOutcome :=
  match posts.findIdx? (fun p => p.id == postId) with
  | none => ⟨posts, [], false, false, false⟩
  | some i =>
    match posts.get? i with
    | none => ⟨posts, [], false, false, false⟩
    | some post =>
      if post.user_has_liked then
        if mutateOk then
          ⟨posts.set i { post with likes_count := post.likes_count - 1,
                                   user_has_liked := false },
           [DbOp.deleteLike postId userId], true, false, false⟩
        else ⟨posts, [DbOp.deleteLike postId userId], false, true, false⟩
      else
        if mutateOk then
          ⟨posts.set i { post with likes_count := post.likes_count + 1,
                                   user_has_liked := true },
           DbOp.insertLike postId userId ::
             (if post.user_id ≠ userId then
               [DbOp.insertNotif post.user_id "like" postId userId]
              else []),
           true, false, false⟩
        else ⟨posts, [DbOp.insertLike postId userId], false, true, false⟩

/-- Cache state after two overlapping toggle calls on the same snapshot. The
handler has no in-flight guard, so a second call issued while the first is
awaiting its gateway write reads the same stale posts state; each call that
reaches setPosts overwrites the cache with a list computed from its own
snapshot, the later writer winning. -/
def overlappedToggles (userId : String) (posts : List Post) (postId : String)
    (ok1 ok2 : Bool) : List Post :=
  let r1 := handlePostLike userId posts postId ok1
  let r2 := handlePostLike userId posts postId ok2
  if r2.didSet then r2.posts else if r1.didSet then r1.posts else posts

/-- The gateway mutations issued across the two overlapping toggle calls. -/
def overlappedToggleOps (userId : String) (posts : List Post) (postId : String)
    (ok1 ok2 : Bool) : List DbOp :=
  (handlePostLike userId posts postId ok1).ops ++
    (handlePostLike userId posts postId ok2).ops

/-- Sequential toggles: each handlePostLike call completes (gateway write
succeeds and setPosts runs) before the next one starts, so each call reads the
cache the previous call wrote. -/
def toggleSeq (userId postId : String) : Nat → List Post → List Post
  | 0, posts => posts
  | n + 1, posts =>
      toggleSeq userId postId n (handlePostLike userId posts postId true).posts

/-- Numeric value of the liked flag, used to state the count/flag coupling. -/
def likedInt (b : Bool) : Int := if b then 1 else 0

/-- A comment as cached by the CommentSection component: id, post, author,
text, abstract creation timestamp. -/
structure CommentRec where
  id : String
  post_id : String
  user_id : String
  content : String
  created_at : Nat
deriving Repr, DecidableEq

/-- A chat message as cached by the ChatWindow component. -/
structure MessageRec where
  id : String
  chat_id : String
  user_id : String
  content : String
  created_at : Nat
deriving Repr, DecidableEq

/-- The commentsSubscription insert handler of CommentSection: after the
realtime event arrives it refetches the record by id and appends it at the end
of the comments cache, with no lookup of the id in the existing cache. -/
def applyCommentInsert (c : CommentRec) (cache : List CommentRec) :
    List CommentRec := cache ++ [c]

/-- The messagesSubscription insert handler of ChatWindow: refetches the
record by id and appends it at the end of the messages cache, again without
checking whether the id is already present. -/
def applyMessageInsert (m : MessageRec) (cache : List MessageRec) :
    List MessageRec := cache ++ [m]

/-- The postsSubscription insert handler of Feed: refetches the authoritative
post by the event id and prepends it to the feed cache. -/
def applyPostInsert (p : Post) (feed : List Post) : List Post := p :: feed

/-- The ids held in a comments cache. -/
def commentIds (cache : List CommentRec) : List String :=
  cache.map (fun c => c.id)

/-- The transcript ordering policy of the comments cache: nondecreasing
creation time (the initial query orders by created_at ascending and the
subscription appends at the end). -/
def commentsSorted (cache : List CommentRec) : Prop :=
  cache.Sorted (fun a b => a.created_at ≤ b.created_at)

/-- Removal of leading and trailing whitespace, as the trim of the source
does; written over the character list so that concrete inputs evaluate. -/
def trimChars (s : String) : String :=
  String.mk
    (((s.data.dropWhile Char.isWhitespace).reverse.dropWhile
        Char.isWhitespace).reverse)

/-- The handleSubmit handler of CommentSection, given the acting user, the
author of the post, the post id, the draft text, and the outcome of the
comments insert. An all-whitespace draft returns before any gateway call; a
failed insert throws to the catch and logs, so no notification follows it; a
successful insert by someone other than the author of the post is followed by
exactly one comment notification insert. The handler never writes the comments
cache (only the subscription does). -/
def commentSubmitOps (userId postUserId postId draft : String)
    (insertOk : Bool) : List DbOp :=
  if trimChars draft = "" then []
  else if insertOk then
    DbOp.insertComment postId userId (trimChars draft) ::
      (if userId ≠ postUserId then
        [DbOp.insertNotif postUserId "comment" postId userId]
       else [])
  else [DbOp.insertComment postId userId (trimChars draft)]

/-- Outcome of a CreatePost submission: the gateway mutations issued and the
form error message shown to the user, if any. -/
structure SubmitOutcome where
  ops : List DbOp
  errorShown : Option String
deriving Repr, DecidableEq

/-- The handleSubmit handler of CreatePost for a text-only submission (no
image): an empty draft shows a validation message before any gateway call;
otherwise the posts insert is awaited and a failure sets the visible form
error. The handler never touches the Feed cache, which lives in a different
component; the new post reaches the feed only through the realtime
subscription after the insert has been committed. -/
def handleSubmitTextOnly (userId draft : String) (insertOk : Bool) :
    SubmitOutcome :=
  if trimChars draft = "" then ⟨[], some "Please add some content or an image"⟩
  else if insertOk then ⟨[DbOp.insertPost userId (trimChars draft)], none⟩
  else ⟨[DbOp.insertPost userId (trimChars draft)], some "Failed to create post"⟩

/-- The Feed cache as observed while the CreatePost mutate is in flight:
handleSubmit applies nothing to it, so it is the pre-submission cache,
unchanged. -/
def feedWhileSubmitting (feed : List Post) : List Post := feed

/-- A chats table row: id, optional group name, group flag, creator. -/
structure ChatRec where
  id : String
  name : Option String
  is_group : Bool
  created_by : String
deriving Repr, DecidableEq

/-- A chat_members table row. -/
structure ChatMemberRec where
  chat_id : String
  user_id : String
deriving Repr, DecidableEq

/-- The two tables the chat-creation flow touches, rows in table order (the
source queries use no ordering clause, so results arrive in this order). -/
structure ChatsDb where
  chats : List ChatRec
  members : List ChatMemberRec
deriving Repr, DecidableEq

/-- Where the chat-creation flow navigates. -/
inductive ChatNav where
  | existing (chatId : String)
  | created (chatId : String)
deriving Repr, DecidableEq

/-- The fallthrough of createOrGetChat: insert a fresh non-group chat created
by the current user and add both users as members, then navigate to it. -/
def createNewDirect (me other freshChatId : String) (db : ChatsDb) :
    ChatNav × ChatsDb :=
  (ChatNav.created freshChatId,
   { chats := db.chats ++ [⟨freshChatId, none, false, me⟩],
     members := db.members ++ [⟨freshChatId, me⟩, ⟨freshChatId, other⟩] })

/-- The createOrGetChat flow of ChatList. It collects the chat ids the current
user belongs to, then the membership rows of the other user within those ids;
if any exist it takes only the FIRST such row and queries the chats table for
that id with is_group = false through single(), navigating there when that one
chat is direct. In every other case, including when the first shared chat is a
group even though a later shared chat is direct, it falls through and creates
a brand-new direct chat. -/
def createOrGetChat (me other freshChatId : String) (db : ChatsDb) :
    ChatNav × ChatsDb :=
  let chatIds :=
    ((db.members.filter (fun m => m.user_id == me)).map (fun m => m.chat_id))
  let matching := db.members.filter
    (fun m => m.user_id == other && chatIds.contains m.chat_id)
  match matching.head? with
  | some m =>
    match (db.chats.filter
        (fun c => c.id == m.chat_id && c.is_group == false)).head? with
    | some chat => (ChatNav.existing chat.id, db)
    | none => createNewDirect me other freshChatId db
  | none => createNewDirect me other freshChatId db

/-- Decides whether cid names a direct (non-group) chat whose members include
both a and b. -/
def isDirectChatBetween (db : ChatsDb) (cid a b : String) : Bool :=
  (db.chats.any (fun c => c.id == cid && c.is_group == false)) &&
    (db.members.any (fun m => m.chat_id == cid && m.user_id == a)) &&
    (db.members.any (fun m => m.chat_id == cid && m.user_id == b))

/-- Environment of one run of createProfileIfNeeded: the outcome of each
fallible step. The stepThrows flag stands for any step raising an exception,
which the catch-all at the bottom of the function absorbs. -/
structure ProvisionEnv where
  tableMissing : Bool
  profileFound : Bool
  checkOtherError : Bool
  insertError : Bool
  stepThrows : Bool
deriving Repr, DecidableEq

/-- What a run of createProfileIfNeeded amounted to. No constructor carries an
exception: the function catches everything and at most logs. -/
inductive ProvisionResult where
  | created
  | skipped
  | loggedFailure
deriving Repr, DecidableEq

/-- The createProfileIfNeeded helper of AuthProvider: return early when the
profiles table is missing or the profile already exists; log and return on an
unexpected read-check error, on an insert error, or on any exception; insert
the profile otherwise. It is total and never propagates a failure to the
caller. -/
def createProfileIfNeeded (env : ProvisionEnv) : ProvisionResult :=
  if env.stepThrows then ProvisionResult.loggedFailure
  else if env.tableMissing then ProvisionResult.skipped
  else if env.profileFound then ProvisionResult.skipped
  else if env.checkOtherError then ProvisionResult.loggedFailure
  else if env.insertError then ProvisionResult.loggedFailure
  else ProvisionResult.created

/-- The auth-relevant client state the onAuthStateChange handler writes:
session, user, loading flag. -/
structure AuthState where
  session : Option String
  user : Option String
  isLoading : Bool
deriving Repr, DecidableEq

/-- The auth events the handler distinguishes. -/
inductive AuthEvent where
  | signedIn
  | userUpdated
  | signedOut
  | other
deriving Repr, DecidableEq

/-- The onAuthStateChange handler of AuthProvider: it stores the session and
its user first, then for SIGNED_IN and USER_UPDATED runs the best-effort
profile provisioning inside its own try/catch (the result is returned here
only to record what provisioning did), and finally clears the loading flag.
Page navigation side effects are not modelled. -/
def onAuthStateChange (ev : AuthEvent) (sessionUser : Option String)
    (env : ProvisionEnv) : AuthState × Option ProvisionResult :=
  let st : AuthState := ⟨sessionUser, sessionUser, false⟩
  match ev, sessionUser with
  | AuthEvent.signedIn, some _ => (st, some (createProfileIfNeeded env))
  | AuthEvent.userUpdated, some _ => (st, some (createProfileIfNeeded env))
  | _, _ => (st, none)

/-- The identity metadata createProfileIfNeeded reads when deriving a
username. -/
structure UserMeta where
  full_name : Option String
  email : Option String
deriving Repr, DecidableEq

/-- Removal of all whitespace, per the replace of whitespace runs with the
empty string in the source. -/
def stripSpaces (s : String) : String :=
  String.mk (s.data.filter (fun c => !c.isWhitespace))

/-- Lowercasing, per toLowerCase in the source. -/
def lowerStr (s : String) : String := String.mk (s.data.map Char.toLower)

/-- The base part of the derived username: the lowercased, despaced full name
when that metadata field is a nonempty string (JS truthiness), else the local
part of the email when nonempty, else the word user followed by a random
number below 10000 (modelled by the explicit argument r1). -/
def usernameBase (meta : UserMeta) (r1 : Nat) : String :=
  if meta.full_name.getD "" ≠ "" then
    lowerStr (stripSpaces (meta.full_name.getD ""))
  else if meta.email.getD "" ≠ "" then
    ((meta.email.getD "").splitOn "@").headD ""
  else "user" ++ toString (r1 % 10000)

/-- The full derived username: the base plus a disambiguating suffix drawn as
a random number below 1000 (modelled by the explicit argument r2). -/
def deriveUsername (meta : UserMeta) (r1 r2 : Nat) : String :=
  usernameBase meta r1 ++ toString (r2 % 1000)

/-- The net effect of one completed successful toggle on the one cached post
it touches: flip the liked flag and move the count by one in the matching
direction. This is exactly what the success branches of handlePostLike write. -/
def flipPost (p : Post) : Post :=
  if p.user_has_liked then
    { p with likes_count := p.likes_count - 1, user_has_liked := false }
  else
    { p with likes_count := p.likes_count + 1, user_has_liked := true }

/-- Recognizes a notifications insert among the issued gateway mutations. -/
def isNotifOp : DbOp → Bool
  | DbOp.insertNotif _ _ _ _ => true
  | _ => false

/-- Recognizes a notifications insert addressed to the given recipient. -/
def isNotifTo (recipient : String) : DbOp → Bool
  | DbOp.insertNotif u _ _ _ => u == recipient
  | _ => false

/-- A realtime messages insert event as the Navigation handler sees it. -/
structure MessageEvent where
  chat_id : String
  user_id : String
deriving Repr, DecidableEq

/-- The messageSubscription handler of Navigation: the subscription is
declared on the whole messages table with no chat or membership filter, and
the handler increments the unread-messages badge whenever the author of the
inserted message differs from the current user. -/
def navUnreadOnInsert (currentUserId : String) (ev : MessageEvent)
    (unread : Nat) : Nat :=
  if ev.user_id ≠ currentUserId then unread + 1 else unread

/-- Concrete post used to exhibit the double-toggle race: the viewer is its
author, it starts unliked with a zero count. -/
def raceDemoPost : Post := ⟨"P1", "hello", "u", 0, 0, 0, false⟩

/-- Concrete post used for the serialized-toggle witness. -/
def seqDemoPost : Post := ⟨"P1", "hello", "a", 0, 2, 0, false⟩

/-- Concrete post used for the failed-like scenario of the rollback claim. -/
def rollbackDemoPost : Post := ⟨"P1", "hello", "a", 0, 0, 0, false⟩

/-- Concrete post used for the unknown-id no-op witness. -/
def noopDemoPost : Post := ⟨"P2", "hello", "a", 0, 0, 0, false⟩

/-- Concrete post used for the notification witness. -/
def notifDemoPost : Post := ⟨"P1", "hello", "a", 0, 0, 0, false⟩

/-- Concrete comment used to exhibit the double-apply duplication. -/
def dupDemoComment : CommentRec := ⟨"c1", "P1", "u", "hi", 5⟩

/-- Concrete comments used for the ordered-insert witness. -/
def earlierDemoComment : CommentRec := ⟨"c0", "P1", "v", "first", 1⟩

def laterDemoComment : CommentRec := ⟨"c1", "P1", "u", "second", 2⟩

/-- Concrete post used for the optimistic-creation witness. -/
def createdDemoPost : Post := ⟨"P1", "hello", "u", 3, 0, 0, false⟩

/-- Database where users a and b share the group chat G, whose membership
rows precede those of their direct chat D. -/
def groupFirstDb : ChatsDb :=
  { chats := [⟨"G", some "grp", true, "a"⟩, ⟨"D", none, false, "a"⟩],
    members := [⟨"G", "a"⟩, ⟨"G", "b"⟩, ⟨"D", "a"⟩, ⟨"D", "b"⟩] }

/-- Concrete metadata used to exhibit the random username suffix. -/
def adaMeta : UserMeta := ⟨some "Ada Lovelace", none⟩

end PulseSpace

open PulseSpace

/-- Helper: flipPost keeps the id of the post. -/
theorem flipPost_id (p : Post) : (flipPost p).id = p.id := by
  cases hflag : p.user_has_liked <;> simp [flipPost, hflag]

/-- Helper: flipPost negates the liked flag. -/
theorem flipPost_flag (p : Post) :
    (flipPost p).user_has_liked = !p.user_has_liked := by
  cases hflag : p.user_has_liked <;> simp [flipPost, hflag]

/-- Helper: one completed toggle leaves the count-minus-flag value unchanged,
which is the sense in which it counts the toggle exactly once. -/
theorem flipPost_invariant (p : Post) :
    (flipPost p).likes_count - likedInt (flipPost p).user_has_liked
      = p.likes_count - likedInt p.user_has_liked := by
  cases hflag : p.user_has_liked <;> simp [flipPost, hflag, likedInt]

/-- Helper: on a singleton cache holding the matching post, a successful
toggle writes exactly the flipped post. -/
theorem handlePostLike_singleton (u pid : String) (p : Post) (h : p.id = pid) :
    (handlePostLike u [p] pid true).posts = [flipPost p] := by
  cases hflag : p.user_has_liked <;>
    simp [handlePostLike, List.findIdx?_cons, h, hflag, flipPost]

/-- C9: invoking the feed like action with a post id that is not in the feed
cache is a no-op: handlePostLike returns before issuing any gateway mutation,
setPosts never runs, and every cached post is unchanged. -/
theorem C9_unknown_post_is_noop (u pid : String) (posts : List Post) (ok : Bool)
    (h : ∀ p ∈ posts, p.id ≠ pid) :
    handlePostLike u posts pid ok = ⟨posts, [], false, false, false⟩ := by
  have hnone : posts.findIdx? (fun p => p.id == pid) = none := by
    rw [List.findIdx?_eq_none_iff]
    intro x hx
    simpa using h x hx
  simp [handlePostLike, hnone]

/-- Witness for C9 at a concrete cache and id. -/
theorem C9_unknown_post_is_noop_witness :
    (∀ p ∈ [noopDemoPost], p.id ≠ "P9") ∧
      handlePostLike "u" [noopDemoPost] "P9" true
        = ⟨[noopDemoPost], [], false, false, false⟩ :=
  ⟨by decide, C9_unknown_post_is_noop "u" "P9" [noopDemoPost] true (by decide)⟩

/-- C10: the navigation unread-messages badge increments on every incoming
message insert whose author differs from the current user, and the increment
does not depend on the chat the message belongs to — the subscription carries
no chat-membership filter, so events from chats the viewer is not a member of
count as well. -/
theorem C10_unread_ignores_membership (me : String) (ev evOther : MessageEvent)
    (n : Nat) (h : ev.user_id ≠ me) (hsame : evOther.user_id = ev.user_id) :
    navUnreadOnInsert me ev n = n + 1 ∧
      navUnreadOnInsert me evOther n = navUnreadOnInsert me ev n := by
  constructor
  · simp [navUnreadOnInsert, h]
  · simp [navUnreadOnInsert, hsame]

/-- Witness for C10: a message authored by someone else, in two different
chats, increments the badge either way. -/
theorem C10_unread_ignores_membership_witness :
    (("other" : String) ≠ "me") ∧
      (MessageEvent.mk "C2" "other").user_id = (MessageEvent.mk "C1" "other").user_id ∧
      (navUnreadOnInsert "me" ⟨"C1", "other"⟩ 0 = 0 + 1 ∧
        navUnreadOnInsert "me" ⟨"C2", "other"⟩ 0
          = navUnreadOnInsert "me" ⟨"C1", "other"⟩ 0) :=
  ⟨by decide, rfl,
    C10_unread_ignores_membership "me" ⟨"C1", "other"⟩ ⟨"C2", "other"⟩ 0
      (by decide) rfl⟩

/-- C6: the profile-provisioning ensure-step never blocks or changes the
sign-in transition: whatever the outcome of the table check, the read-check,
the insert, or an exception in any of them, the handler ends with the same
session and user state as when provisioning succeeds, with loading cleared. -/
theorem C6_provisioning_never_blocks_auth (ev : AuthEvent) (su : Option String)
    (env envOk : ProvisionEnv) :
    (onAuthStateChange ev su env).1 = ⟨su, su, false⟩ ∧
      (onAuthStateChange ev su env).1 = (onAuthStateChange ev su envOk).1 := by
  cases ev <;> cases su <;> simp [onAuthStateChange]

/-- C4, counterexample: the claim says a provisional post with the submitted
content and zero counts appears in the Feed cache while the gateway mutate is
still in flight; but handleSubmit never writes the Feed cache, so during the
mutate the feed is the pre-submission cache — starting from an empty feed
there is no post with content hello in it at that point. -/
theorem C4_counterexample :
    ((feedWhileSubmitting ([] : List Post)).any
        (fun q => q.content == "hello" && q.likes_count == 0
          && q.comments_count == 0)) = false := by
  decide

/-- C4, amended: no provisional record is applied before the mutate completes
(the feed during submission is exactly the prior feed, and the submit handler
issues only the posts insert); the post reaches the feed through the realtime
subscription after the gateway confirms, and when its authoritative id is not
already cached the resulting feed holds exactly one post with that id. -/
theorem C4_no_provisional_single_copy (uid : String) (feed : List Post)
    (p : Post) (hfresh : ∀ q ∈ feed, q.id ≠ p.id) :
    feedWhileSubmitting feed = feed ∧
      handleSubmitTextOnly uid "hello" true
        = ⟨[DbOp.insertPost uid "hello"], none⟩ ∧
      (applyPostInsert p feed).countP (fun q => q.id == p.id) = 1 := by
  refine ⟨rfl, by simp [handleSubmitTextOnly, show trimChars "hello" = "hello" by decide], ?_⟩
  have h0 : feed.countP (fun q => q.id == p.id) = 0 := by
    rw [List.countP_eq_zero]
    intro a ha
    simpa using hfresh a ha
  simp [applyPostInsert, List.countP_cons, h0]

/-- Witness for C4 at a concrete submission and feed. -/
theorem C4_no_provisional_single_copy_witness :
    (∀ q ∈ ([] : List Post), q.id ≠ createdDemoPost.id) ∧
      (feedWhileSubmitting ([] : List Post) = [] ∧
        handleSubmitTextOnly "u" "hello" true
          = ⟨[DbOp.insertPost "u" "hello"], none⟩ ∧
        (applyPostInsert createdDemoPost []).countP
            (fun q => q.id == createdDemoPost.id) = 1) :=
  ⟨by decide, C4_no_provisional_single_copy "u" [] createdDemoPost (by decide)⟩

/-- C5: the code checks only the FIRST chat shared by the two users and
requires that one to be direct; with the direct chat D present but the shared
group chat G ordered before it, the flow falls through and inserts a brand-new
direct chat instead of navigating to D, contradicting the duplicate-prevention
scenario of the specification. -/
theorem C5_group_first_creates_duplicate :
    isDirectChatBetween groupFirstDb "D" "a" "b" = true ∧
      (createOrGetChat "a" "b" "N" groupFirstDb).1 = ChatNav.created "N" ∧
      (createOrGetChat "a" "b" "N" groupFirstDb).2.chats.length
        = groupFirstDb.chats.length + 1 := by
  decide

/-- C8, counterexample: the derived username is not a function of the identity
metadata alone — the uniqueness suffix is drawn at random, so two provisioning
runs with the same metadata can produce different usernames. -/
theorem C8_counterexample :
    deriveUsername adaMeta 0 7 ≠ deriveUsername adaMeta 0 8 := by
  decide

/-- C8, amended: when the metadata carries a nonempty full name or email, the
base of the username is a deterministic function of the metadata, and the two
runs can differ only in the random numeric suffix below 1000 appended to that
base. -/
theorem C8_base_deterministic_suffix_random (meta : UserMeta) (r1 rOther r2 : Nat)
    (h : meta.full_name.getD "" ≠ "" ∨ meta.email.getD "" ≠ "") :
    deriveUsername meta r1 r2 = usernameBase meta rOther ++ toString (r2 % 1000) ∧
      usernameBase meta r1 = usernameBase meta rOther := by
  have hbase : usernameBase meta r1 = usernameBase meta rOther := by
    unfold usernameBase
    rcases h with h | h
    · simp [h]
    · by_cases hname : meta.full_name.getD "" ≠ ""
      · simp [hname]
      · simp [hname, h]
  exact ⟨by rw [deriveUsername, hbase], hbase⟩

/-- Witness for C8 at concrete metadata and random draws. -/
theorem C8_base_deterministic_suffix_random_witness :
    (adaMeta.full_name.getD "" ≠ "" ∨ adaMeta.email.getD "" ≠ "") ∧
      (deriveUsername adaMeta 3 7 = usernameBase adaMeta 9 ++ toString (7 % 1000) ∧
        usernameBase adaMeta 3 = usernameBase adaMeta 9) :=
  ⟨Or.inl (by decide), C8_base_deterministic_suffix_random adaMeta 3 9 7
    (Or.inl (by decide))⟩

/-- C1, counterexample: two like toggles that overlap in flight both read the
same unliked snapshot; both gateway inserts are issued (neither call is queued
behind the other nor rejected) and after both complete the cached flag is true
and the count is 1, while the parity of the two completed toggles demands flag
false and count 0 — the state the claim predicts, namely the initial post,
is not what the cache holds. -/
theorem C1_counterexample :
    overlappedToggles "u" [raceDemoPost] "P1" true true ≠ [raceDemoPost] ∧
      (overlappedToggles "u" [raceDemoPost] "P1" true true).map
          (fun q => q.user_has_liked) = [true] ∧
      (overlappedToggles "u" [raceDemoPost] "P1" true true).map
          (fun q => q.likes_count) = [1] ∧
      overlappedToggleOps "u" [raceDemoPost] "P1" true true
        = [DbOp.insertLike "P1" "u", DbOp.insertLike "P1" "u"] := by
  decide

/-- C1, amended: when toggle calls are serialized — each completes before the
next starts — the cached liked flag after n completed toggles equals the
initial flag xor the parity of n, and the count minus the flag value is
invariant, so each completed toggle moves the count exactly once in the
direction of its flag flip. -/
theorem C1_serialized_toggle_parity (u pid : String) (p : Post)
    (h : p.id = pid) (n : Nat) :
    (toggleSeq u pid n [p]).map (fun q => q.user_has_liked)
        = [(p.user_has_liked).xor (decide (n % 2 = 1))] ∧
      (toggleSeq u pid n [p]).map
          (fun q => q.likes_count - likedInt q.user_has_liked)
        = [p.likes_count - likedInt p.user_has_liked] := by
  induction n generalizing p with
  | zero => simp [toggleSeq]
  | succ n ih =>
    have hstep : toggleSeq u pid (n + 1) [p] = toggleSeq u pid n [flipPost p] := by
      simp only [toggleSeq]
      rw [handlePostLike_singleton u pid p h]
    have hid : (flipPost p).id = pid := by rw [flipPost_id]; exact h
    obtain ⟨ihf, ihc⟩ := ih (flipPost p) hid
    have hpar : decide ((n + 1) % 2 = 1) = !decide (n % 2 = 1) := by
      by_cases hc : n % 2 = 1
      · have h2 : (n + 1) % 2 = 0 := by omega
        simp [hc, h2]
      · have h2 : (n + 1) % 2 = 1 := by omega
        simp [hc, h2]
    constructor
    · rw [hstep, ihf, flipPost_flag, hpar]
      cases hb : p.user_has_liked <;> cases hd : decide (n % 2 = 1) <;> rfl
    · rw [hstep, ihc, flipPost_invariant]

/-- Witness for the serialized-toggle parity at a concrete post and three
completed toggles. -/
theorem C1_serialized_toggle_parity_witness :
    (seqDemoPost.id = "P1") ∧
      ((toggleSeq "u" "P1" 3 [seqDemoPost]).map (fun q => q.user_has_liked)
          = [(seqDemoPost.user_has_liked).xor (decide (3 % 2 = 1))] ∧
        (toggleSeq "u" "P1" 3 [seqDemoPost]).map
            (fun q => q.likes_count - likedInt q.user_has_liked)
          = [seqDemoPost.likes_count - likedInt seqDemoPost.user_has_liked]) :=
  ⟨rfl, C1_serialized_toggle_parity "u" "P1" seqDemoPost rfl 3⟩

/-- C2, counterexample: the comments cache insert is a plain append with no id
reconciliation, so applying the same authoritative record twice — once for the
mutate response and once for the subscribe event — is not idempotent: the
resulting cache differs from the single-apply cache and carries a duplicate
id. -/
theorem C2_counterexample :
    ¬ ((applyCommentInsert dupDemoComment (applyCommentInsert dupDemoComment [])
          = applyCommentInsert dupDemoComment []) ∧
        (commentIds (applyCommentInsert dupDemoComment
            (applyCommentInsert dupDemoComment []))).Nodup) := by
  decide

/-- C2, amended: the caches keep no-duplicate-ids and sortedness only under
single delivery in order: inserting a record whose id is fresh and whose
timestamp is at least every cached one preserves distinctness of ids and the
ascending transcript order, while applying that same record a second time
necessarily changes the cache again (the insert is not idempotent). -/
theorem C2_fresh_ordered_insert (c : CommentRec) (cache : List CommentRec)
    (hfresh : c.id ∉ commentIds cache)
    (hnodup : (commentIds cache).Nodup)
    (hsorted : commentsSorted cache)
    (harrive : ∀ x ∈ cache, x.created_at ≤ c.created_at) :
    (commentIds (applyCommentInsert c cache)).Nodup ∧
      commentsSorted (applyCommentInsert c cache) ∧
      applyCommentInsert c (applyCommentInsert c cache)
        ≠ applyCommentInsert c cache := by
  refine ⟨?_, ?_, ?_⟩
  · unfold applyCommentInsert commentIds
    rw [List.map_append, List.nodup_append]
    refine ⟨hnodup, by simp, ?_⟩
    intro a ha hb
    simp at hb
    subst hb
    exact hfresh (by simpa [commentIds] using ha)
  · unfold applyCommentInsert commentsSorted
    unfold commentsSorted at hsorted
    rw [List.Sorted] at hsorted ⊢
    rw [List.pairwise_append]
    refine ⟨hsorted, List.pairwise_singleton _ _, ?_⟩
    intro x hx y hy
    simp at hy
    subst hy
    exact harrive x hx
  · intro hEq
    have hlen := congrArg List.length hEq
    simp [applyCommentInsert] at hlen

/-- Witness for the amended cache-insert invariant at a concrete cache. -/
theorem C2_fresh_ordered_insert_witness :
    (laterDemoComment.id ∉ commentIds [earlierDemoComment]) ∧
      (commentIds [earlierDemoComment]).Nodup ∧
      commentsSorted [earlierDemoComment] ∧
      (∀ x ∈ [earlierDemoComment], x.created_at ≤ laterDemoComment.created_at) ∧
      ((commentIds (applyCommentInsert laterDemoComment [earlierDemoComment])).Nodup ∧
        commentsSorted (applyCommentInsert laterDemoComment [earlierDemoComment]) ∧
        applyCommentInsert laterDemoComment
            (applyCommentInsert laterDemoComment [earlierDemoComment])
          ≠ applyCommentInsert laterDemoComment [earlierDemoComment]) :=
  ⟨by decide, by decide, by simp [commentsSorted], by decide,
    C2_fresh_ordered_insert laterDemoComment [earlierDemoComment]
      (by decide) (by decide) (by simp [commentsSorted]) (by decide)⟩

/-- C3, counterexample: at the claimed scenario — an unliked post with count
zero whose like mutate fails — the cached values do stay at their prior state,
but no user-visible error is surfaced: the handler only logs to the console,
so the conjunction the claim asserts is false. -/
theorem C3_counterexample :
    ¬ (((handlePostLike "u" [rollbackDemoPost] "P1" false).posts
          = [rollbackDemoPost]) ∧
        (handlePostLike "u" [rollbackDemoPost] "P1" false).alerted = true) := by
  decide

/-- C3, amended: a like or unlike whose gateway mutate fails leaves every
cached value at its prior state — the handler applies the cache update only
after the mutate succeeds, so there is no optimistic apply to roll back — and
the failure is logged to the console without any user-visible error. -/
theorem C3_failed_toggle_keeps_cache (u pid : String) (posts : List Post)
    (h : ∃ p ∈ posts, p.id = pid) :
    (handlePostLike u posts pid false).posts = posts ∧
      (handlePostLike u posts pid false).didSet = false ∧
      (handlePostLike u posts pid false).logged = true ∧
      (handlePostLike u posts pid false).alerted = false := by
  have hne : posts.findIdx? (fun p => p.id == pid) ≠ none := by
    rw [Ne, List.findIdx?_eq_none_iff]
    push_neg
    obtain ⟨p, hp, hid⟩ := h
    exact ⟨p, hp, by simp [hid]⟩
  obtain ⟨i, hi⟩ := Option.ne_none_iff_exists'.mp hne
  obtain ⟨hlt, hpi, -⟩ := List.findIdx?_eq_some_iff_getElem.mp hi
  cases hflag : posts[i].user_has_liked <;>
    simp [handlePostLike, hi, List.getElem?_eq_getElem hlt, hflag]

/-- Witness for the failed-toggle behavior at the concrete scenario post. -/
theorem C3_failed_toggle_keeps_cache_witness :
    (∃ p ∈ [rollbackDemoPost], p.id = "P1") ∧
      ((handlePostLike "u" [rollbackDemoPost] "P1" false).posts
          = [rollbackDemoPost] ∧
        (handlePostLike "u" [rollbackDemoPost] "P1" false).didSet = false ∧
        (handlePostLike "u" [rollbackDemoPost] "P1" false).logged = true ∧
        (handlePostLike "u" [rollbackDemoPost] "P1" false).alerted = false) :=
  ⟨⟨rollbackDemoPost, by decide, rfl⟩,
    C3_failed_toggle_keeps_cache "u" "P1" [rollbackDemoPost]
      ⟨rollbackDemoPost, by decide, rfl⟩⟩

/-- C7: a successfully created like, and a successfully created comment, each
issue exactly one notification insert, addressed to the author of the post,
precisely when the acting account differs from that author; an action by the
author personally issues none. -/
theorem C7_notif_iff_distinct_author (u pid draft : String) (p : Post)
    (hid : p.id = pid) (hflag : p.user_has_liked = false)
    (hdraft : trimChars draft ≠ "") :
    ((handlePostLike u [p] pid true).ops.countP isNotifOp
        = if p.user_id = u then 0 else 1) ∧
      ((handlePostLike u [p] pid true).ops.countP (isNotifTo p.user_id)
        = if p.user_id = u then 0 else 1) ∧
      ((commentSubmitOps u p.user_id pid draft true).countP isNotifOp
        = if p.user_id = u then 0 else 1) ∧
      ((commentSubmitOps u p.user_id pid draft true).countP (isNotifTo p.user_id)
        = if p.user_id = u then 0 else 1) := by
  by_cases hau : p.user_id = u
  · simp [handlePostLike, List.findIdx?_cons, hid, hflag, commentSubmitOps,
      hdraft, hau, isNotifOp, isNotifTo, List.countP_cons]
  · simp [handlePostLike, List.findIdx?_cons, hid, hflag, commentSubmitOps,
      hdraft, hau, Ne.symm hau, isNotifOp, isNotifTo, List.countP_cons]

/-- Witness for the notification rule at a concrete like and comment by a
non-author. -/
theorem C7_notif_iff_distinct_author_witness :
    (notifDemoPost.id = "P1") ∧ (notifDemoPost.user_has_liked = false) ∧
      (trimChars "hi" ≠ "") ∧
      (((handlePostLike "u" [notifDemoPost] "P1" true).ops.countP isNotifOp
          = if notifDemoPost.user_id = "u" then 0 else 1) ∧
        ((handlePostLike "u" [notifDemoPost] "P1" true).ops.countP
            (isNotifTo notifDemoPost.user_id)
          = if notifDemoPost.user_id = "u" then 0 else 1) ∧
        ((commentSubmitOps "u" notifDemoPost.user_id "P1" "hi" true).countP
            isNotifOp
          = if notifDemoPost.user_id = "u" then 0 else 1) ∧
        ((commentSubmitOps "u" notifDemoPost.user_id "P1" "hi" true).countP
            (isNotifTo notifDemoPost.user_id)
          = if notifDemoPost.user_id = "u" then 0 else 1)) :=
  ⟨rfl, rfl, by decide,
    C7_notif_iff_distinct_author "u" "P1" "hi" notifDemoPost rfl rfl (by decide)⟩
